import Mathlib

/-!
Verification of the schema-to-class generator `java_entity_gen.py`.

The Python source is shallowly embedded: each function of the source is
translated into an executable Lean definition of the same name, string
building by repeated `+=` becomes list/append structure, fallible code
returns `Except String`.  Database and file I/O stay at the boundary:
functions that consume cursor results take those result rows as explicit
arguments.
-/

deriving instance DecidableEq for Except

namespace JavaEntityGen

/-- Source line 80: the Python regex class `\w` restricted to ASCII
(letters, digits, underscore). -/
def isPyWordChar (c : Char) : Bool :=
  c.isAlphanum || c = '_'

/-- Source line 80: the Python regex class `\s` restricted to ASCII
(space, tab, newline, carriage return, vertical tab, form feed). -/
def isPySpace (c : Char) : Bool :=
  c = ' ' || c = '\t' || c = '\n' || c = '\r' || c = '\x0b' || c = '\x0c'

/-- Matcher for the regex `^\s*(\w+)\(\d+\)\s*$` of `extract_sql_type`
(source lines 79-82): optional whitespace, a nonempty word-character
group, a literal parenthesized nonempty digit run, optional trailing
whitespace; returns the captured group. -/
def matchTypeLen (l : List Char) : Option (List Char) :=
  let l1 := l.dropWhile isPySpace
  let w := l1.takeWhile isPyWordChar
  let r1 := l1.dropWhile isPyWordChar
  if w.isEmpty then none
  else
    match r1 with
    | '(' :: r2 =>
      let ds := r2.takeWhile Char.isDigit
      let r3 := r2.dropWhile Char.isDigit
      if ds.isEmpty then none
      else
        match r3 with
        | ')' :: r4 => if r4.all isPySpace then some w else none
        | _ => none
    | _ => none

/-- Source lines 79-82: `extract_sql_type` strips a parenthesized single
integer length suffix via `re.match("^\s*(\w+)\(\d+\)\s*$", sql_type)`;
when the regex does not match, the input is returned unchanged. -/
def extract_sql_type (sql_type : String) : String :=
  match matchTypeLen sql_type.data with
  | some w => String.mk w
  | none => sql_type

/-- Source lines 16-29: the module-level `sql_java_type_mapping` dict,
in source order. -/
def sql_java_type_mapping : List (String × String) :=
  [("varchar", "String"),
   ("datetime", "LocalDateTime"),
   ("timestamp", "LocalDateTime"),
   ("int", "Integer"),
   ("smallint", "Integer"),
   ("tinyint", "Integer"),
   ("short", "Integer"),
   ("bigint", "Long"),
   ("decimal", "BigDecimal"),
   ("char", "String"),
   ("text", "String"),
   ("json", "String")]

/-- Python's `str.lower` modelled character-wise (the source only meets
ASCII identifiers and type keywords). -/
def pyLower (s : String) : String :=
  String.mk (s.data.map Char.toLower)

/-- Source lines 227-233: `to_java_type` lowercases its argument, then
looks it up in `sql_java_type_mapping`; a missing key raises
`ValueError(f"Unable to find corresponding java type for ...")`. -/
def to_java_type (sql_type : String) : Except String String :=
  let sql_type := pyLower sql_type
  match sql_java_type_mapping.lookup sql_type with
  | none => Except.error ("Unable to find corresponding java type for " ++ sql_type)
  | some t => Except.ok t

/-- Source lines 31-33: `first_char_lower` lowercases the one-character
slice `s[0:1]` and keeps the rest; on the empty string the slice is
empty. -/
def first_char_lower (s : String) : String :=
  match s.data with
  | [] => ""
  | c :: cs => String.mk (c.toLower :: cs)

/-- Source lines 36-38: `first_char_upper` uppercases the one-character
slice `s[0:1]` and keeps the rest; on the empty string the slice is
empty. -/
def first_char_upper (s : String) : String :=
  match s.data with
  | [] => ""
  | c :: cs => String.mk (c.toUpper :: cs)

/-- Source lines 48-57: one iteration of the `to_camel_case` loop; the
state is the accumulator `ccs` and the flag `is_prev_uc`. -/
def camelStep (acc : String × Bool) (ci : Char) : String × Bool :=
  if ci = '_' then (acc.1, true)
  else if acc.2 then (acc.1.push ci.toUpper, false)
  else (acc.1.push ci, false)

/-- Source lines 41-58: `to_camel_case` lowercases the input and scans
it left to right with `camelStep`, starting from an empty accumulator
and a cleared flag. -/
def to_camel_case (s : String) : String :=
  ((pyLower s).data.foldl camelStep ("", false)).1

/-- The Identifier Normalizer as the specification words it: after
lowercasing, an underscore is dropped and sets a capitalize-next flag,
and the next non-underscore character is upper-cased when the flag is
set.  Used to state the refinement claim about `to_camel_case`. -/
def camelSpecScan : Bool → List Char → List Char
  | _, [] => []
  | _, '_' :: cs => camelSpecScan true cs
  | true, c :: cs => c.toUpper :: camelSpecScan false cs
  | false, c :: cs => c :: camelSpecScan false cs

theorem camelStep_foldl (l : List Char) :
    ∀ (a : String) (b : Bool),
      (l.foldl camelStep (a, b)).1 = a ++ String.mk (camelSpecScan b l) := by
  induction l with
  | nil =>
    intro a b
    apply String.ext
    simp [camelSpecScan]
  | cons c cs ih =>
    intro a b
    by_cases hc : c = '_'
    · subst hc
      cases b <;>
        simp [List.foldl_cons, camelStep, camelSpecScan, ih]
    · cases b <;>
        simp only [List.foldl_cons, camelStep, camelSpecScan, hc, if_false, if_true,
          Bool.false_eq_true, ite_false, ite_true, ih] <;>
        · apply String.ext
          simp [String.push]
/-- Source lines 236-246: an `SQLField` record; `sql_field_name` is the
raw column name with backticks removed, `java_type` is the resolved
target type and `java_field_name` the camel-cased name. -/
structure SQLField where
  sql_field_name : String
  sql_type : String
  comment : String
  java_type : String
  java_field_name : String
  deriving Repr, DecidableEq

/-- Source lines 237-242: the `SQLField` constructor; `to_java_type` may
fail, which aborts construction (`ValueError`). -/
def mkSQLField (field_name : String) (sql_type : String) (comment : String) :
    Except String SQLField :=
  let sfn := String.mk (field_name.data.filter (fun c => c ≠ '`'))
  match to_java_type sql_type with
  | Except.error e => Except.error e
  | Except.ok jt =>
    Except.ok { sql_field_name := sfn, sql_type := sql_type, comment := comment,
                java_type := jt, java_field_name := to_camel_case sfn }

/-- Source lines 249-256: an `SQLTable` record.  The derived
`java_type_set` of the source is recovered by `SQLTable.is_type_used`
below, which tests membership among the fields' java types. -/
structure SQLTable where
  table_name : String
  table_comment : String
  fields : List SQLField
  deriving Repr, DecidableEq

/-- Source line 252: the constructor normalizes a `None` table comment
to the empty string. -/
def mkSQLTable (table_name : String) (table_comment : Option String)
    (fields : List SQLField) : SQLTable :=
  { table_name := table_name, table_comment := table_comment.getD "",
    fields := fields }

/-- Source lines 266-272: `is_type_used` checks whether a java type
occurs in the table; the source precomputes the set of the fields' java
types, so this is membership among them. -/
def SQLTable.is_type_used (t : SQLTable) (java_type : String) : Bool :=
  t.fields.any (fun f => f.java_type == java_type)

/-- Source lines 274-278: `supply_java_class_name` derives the class
name from the table name. -/
def SQLTable.supply_java_class_name (t : SQLTable) : String :=
  first_char_upper (to_camel_case t.table_name)

/-- Modelled from the spec: `pystuff.str_matches` comes from the external
`pystuff` module, which is not part of this repository.  The spec says
the identifier annotation is used "when the normalized field name
semantically denotes a primary key ('id')", so the helper is modelled as
an exact match against the literal pattern. -/
def pystuff_str_matches (s : String) (pattern : String) : Bool :=
  s == pattern

/-- The command-line options consumed by the renderer and driver
(source lines 60-76): the `-mybatis` and `-lambok` toggles, `-author`,
`-extends`, and the parsed-but-unused `-excl`. -/
structure Args where
  mybatis : Bool
  lambok : Bool
  author : String
  extendsOpt : Option String
  excl : Option String
  deriving Repr, DecidableEq

/-- Python's `str.strip` modelled character-wise: leading and trailing
whitespace characters are removed. -/
def pyStrip (s : String) : String :=
  String.mk (((s.data.dropWhile isPySpace).reverse.dropWhile isPySpace).reverse)

/-- Python truthiness of an optional string argument: `None` and the
empty string are falsy. -/
def optTruthy : Option String → Bool
  | none => false
  | some s => s != ""

/-- Source lines 191-193: `canonical[canonical.rfind('.') + 1:]`, the
simple name after the last dot (the whole string when there is none). -/
def afterLastDot (s : String) : String :=
  String.mk ((s.data.reverse.takeWhile (fun c => c ≠ '.')).reverse)

/-- Source line 141: the class name is the specified one when given,
otherwise the one derived from the table name. -/
def class_name_of (spec_class_name : Option String) (table : SQLTable) : String :=
  match spec_class_name with
  | some n => n
  | none => table.supply_java_class_name

/-- Source lines 200-207: the strings appended for one field in the
field loop — the doc comment, the optional mybatis-plus annotation
(`@TableId` for the primary key, `@TableField` otherwise), and the
private field declaration. -/
def field_segs (mbp_ft : Bool) (f : SQLField) : List String :=
  ["    /** " ++ f.comment ++ " */\n"] ++
  (if mbp_ft then
    (if pystuff_str_matches f.sql_field_name "id" then
      ["    @TableId(type = IdType.AUTO)\n"]
     else
      ["    @TableField(\"" ++ f.sql_field_name ++ "\")\n"])
   else []) ++
  ["    private " ++ f.java_type ++ " " ++ f.java_field_name ++ ";\n\n"]

/-- Source lines 212-221: the strings appended for one field in the
getter/setter loop (run only when lombok is off). -/
def accessor_segs (f : SQLField) : List String :=
  let us := first_char_upper f.java_field_name
  ["    public " ++ f.java_type ++ " get" ++ us ++ "() \x7b\n",
   "        return this." ++ f.java_field_name ++ "\n",
   "    \x7d\n\n",
   "    public void set" ++ us ++ "(" ++ f.java_type ++ " " ++ f.java_field_name ++ ") \x7b\n",
   "        this." ++ f.java_field_name ++ " = " ++ f.java_field_name ++ ";\n",
   "    \x7d\n\n"]

/-- Source lines 136-195: everything `generate_java_class` appends
before the field loop, one list entry per `+=`, in source order:
package, imports, doc comment, class-level annotations and the class
declaration up to the opening brace. -/
def gjc_header_segs (table : SQLTable) (ap : Args)
    (spec_class_name package : Option String) : List String :=
  let class_name := class_name_of spec_class_name table
  (match package with
   | some p => ["package " ++ p ++ ";\n"]
   | none => []) ++
  (if table.is_type_used "LocalDateTime" then ["import java.time.*;\n"] else []) ++
  (if table.is_type_used "BigDecimal" then ["import java.math.*;\n"] else []) ++
  ["\n"] ++
  (if ap.mybatis then ["import com.baomidou.mybatisplus.annotation.*;\n"] else []) ++
  ["\n"] ++
  (if ap.lambok then ["import lombok.*;\n"] else []) ++
  (if optTruthy ap.extendsOpt then
    ["import " ++ pyStrip (ap.extendsOpt.getD "") ++ ";\n"] else []) ++
  ["\n", "/**\n", " * " ++ table.table_comment ++ "\n"] ++
  (if ap.author == "" then [] else [" *\n", " * @author " ++ ap.author ++ "\n"]) ++
  [" */\n"] ++
  (if ap.lambok then ["@Data\n"] else []) ++
  (if ap.mybatis then
    ["@TableName(value = \"" ++ table.table_name ++ "\", autoResultMap = true)\n"]
   else []) ++
  ["public class " ++ class_name] ++
  (if optTruthy ap.extendsOpt then
    [" extends " ++ afterLastDot (ap.extendsOpt.getD "")] else []) ++
  [" \x7b\n\n"]

/-- Source lines 125-224: the full sequence of strings appended by
`generate_java_class` — header, field loop, getter/setter loop (only
without lombok), closing brace. -/
def gjc_segments (table : SQLTable) (ap : Args)
    (spec_class_name package : Option String) : List String :=
  gjc_header_segs table ap spec_class_name package ++
  table.fields.flatMap (field_segs ap.mybatis) ++
  (if ap.lambok then [] else table.fields.flatMap accessor_segs) ++
  ["\x7d\n"]

/-- Source lines 125-224: `generate_java_class` returns the
concatenation, in order, of every string the source appends to its
accumulator `s`. -/
def generate_java_class (table : SQLTable) (ap : Args)
    (spec_class_name package : Option String) : String :=
  String.join (gjc_segments table ap spec_class_name package)

/-- Source lines 110-113: `fetch_table_comment` runs the
information-schema query and returns `r[0][0]` of the fetched rows with
no emptiness check; an empty result raises `IndexError`.  The rows the
cursor returns are taken as the argument. -/
def fetch_table_comment (rows : List (List String)) : Except String String :=
  match rows with
  | [] => Except.error "IndexError: list index out of range"
  | r :: _ =>
    match r with
    | [] => Except.error "IndexError: tuple index out of range"
    | c :: _ => Except.ok c

/-- Source lines 116-122: `fetch_column_info` builds a dict from column
name to column comment out of the fetched rows; a later row overwrites
an earlier one with the same key, hence the reversed search. -/
def fetch_column_info (rows : List (String × String)) : String → Option String :=
  fun k => (rows.reverse.find? (fun row => row.1 == k)).map (fun row => row.2)

/-- Source lines 85-107: `parseSqlTable` builds the fields from the
`DESC` rows (name, type), fills each field's comment from the column
info dict (a missing key raises `KeyError`), fetches the table comment
and assembles the `SQLTable`.  The three cursor results are taken as
arguments. -/
def parseSqlTable (table : String) (desc_rows : List (String × String))
    (colinfo_rows : List (String × String)) (comment_rows : List (List String)) :
    Except String SQLTable := do
  let fields ← desc_rows.mapM
    (fun r => mkSQLField r.1 (extract_sql_type r.2) "")
  let ci := fetch_column_info colinfo_rows
  let fields ← fields.mapM (fun f =>
    match ci f.sql_field_name with
    | none => Except.error ("KeyError: '" ++ f.sql_field_name ++ "'")
    | some c => Except.ok { f with comment := c })
  let table_comment ← fetch_table_comment comment_rows
  Except.ok (mkSQLTable table (some table_comment) fields)

/-- Python's `str.rfind(sub)` (source lines 325, 328): the greatest
index at which `sub` starts in `s`, `none` standing for Python's `-1`. -/
def rfindSub (s sub : String) : Option Nat :=
  ((List.range (s.data.length + 1)).filter
    (fun i => sub.data.isPrefixOf (s.data.drop i))).getLast?

/-- Python's slice `s[lo:hi]` for nonnegative codepoint indices
(source line 333). -/
def pySlice (s : String) (lo hi : Nat) : String :=
  String.mk ((s.data.drop lo).take (hi - lo))

/-- Source lines 319-340: how `__main__` picks the java class name: when
`-output` is truthy and contains `.java`, the name is sliced out of the
path between the last `/` and the last `.java`; otherwise it falls back
to the name derived from the table. -/
def driver_class_name (output : Option String) (t : SQLTable) : String :=
  let java_class_name : Option String :=
    match output with
    | none => none
    | some fn =>
      if fn = "" then none
      else
        match rfindSub fn ".java" with
        | none => none
        | some hi =>
          let lo : Nat :=
            match rfindSub fn "/" with
            | none => 0
            | some l => l + 1
          some (pySlice fn lo hi)
  match java_class_name with
  | none => t.supply_java_class_name
  | some n => n

/-! ### Helper lemmas about string joining and prefixes -/

theorem foldl_append_shift (l : List String) :
    ∀ s : String, l.foldl (· ++ ·) s = s ++ l.foldl (· ++ ·) "" := by
  induction l with
  | nil => intro s; simp
  | cons a t ih =>
    intro s
    rw [List.foldl_cons, List.foldl_cons, ih (s ++ a), ih ("" ++ a)]
    rw [String.empty_append, String.append_assoc]

theorem join_cons (s : String) (l : List String) :
    String.join (s :: l) = s ++ String.join l := by
  show (s :: l).foldl (· ++ ·) "" = s ++ l.foldl (· ++ ·) ""
  rw [List.foldl_cons, String.empty_append, foldl_append_shift]

theorem join_nil : String.join [] = "" := rfl

theorem join_append (l₁ l₂ : List String) :
    String.join (l₁ ++ l₂) = String.join l₁ ++ String.join l₂ := by
  induction l₁ with
  | nil => simp [join_nil, String.empty_append]
  | cons a t ih => simp [join_cons, ih, String.append_assoc]

theorem join_flatMap {α : Type} (g : α → List String) (l : List α) :
    String.join (l.flatMap g) = String.join (l.map (fun a => String.join (g a))) := by
  induction l with
  | nil => rfl
  | cons a t ih => simp [List.flatMap_cons, join_append, join_cons, ih]

/-- A member of a joined list of strings occurs inside the joined
string. -/
theorem mem_join_isInfix {seg : String} {l : List String} (h : seg ∈ l) :
    seg.data <:+: (String.join l).data := by
  induction l with
  | nil => cases h
  | cons a t ih =>
    rcases List.mem_cons.mp h with h | h
    · subst h
      exact ⟨[], (String.join t).data, by simp [join_cons, String.data_append]⟩
    · rcases ih h with ⟨u, v, huv⟩
      refine ⟨a.data ++ u, v, ?_⟩
      rw [join_cons, String.data_append, ← huv]
      simp [List.append_assoc]

/-- If the first `lit.length` characters of `p` already fail to be a
prefix of the literal `lit`, then `p` is not a prefix of anything that
starts with `lit`. -/
theorem not_isPfx_append {p lit : List Char}
    (h : List.isPrefixOf (p.take lit.length) lit = false) :
    ∀ rest : List Char, List.isPrefixOf p (lit ++ rest) = false := by
  induction lit generalizing p with
  | nil =>
    intro rest
    simp [List.isPrefixOf] at h
  | cons x xs ih =>
    intro rest
    cases p with
    | nil => simp [List.isPrefixOf] at h
    | cons c cs =>
      simp only [List.length_cons, List.take_succ_cons, List.isPrefixOf] at h ⊢
      rcases Bool.and_eq_false_iff.mp h with h | h
      · simp [h]
      · simp [ih h]

/-- Specialization of `not_isPfx_append` to strings: `p` is not a
prefix of `lit ++ rest` when its truncation already mismatches the
literal `lit`. -/
theorem not_isPfx_str {p lit : String}
    (h : List.isPrefixOf (p.data.take lit.data.length) lit.data = false)
    (rest : String) :
    List.isPrefixOf p.data (lit ++ rest).data = false := by
  rw [String.data_append]
  exact not_isPfx_append h rest.data

/-- Inventory of the header segments: every member of
`gjc_header_segs` is one of the listed shapes, with its guarding
condition. -/
theorem mem_gjc_header_cases {t : SQLTable} {ap : Args} {scn pkg : Option String}
    {seg : String} (h : seg ∈ gjc_header_segs t ap scn pkg) :
    (pkg.isSome = true ∧ seg = "package " ++ pkg.getD "" ++ ";\n") ∨
    (t.is_type_used "LocalDateTime" = true ∧ seg = "import java.time.*;\n") ∨
    (t.is_type_used "BigDecimal" = true ∧ seg = "import java.math.*;\n") ∨
    seg = "\n" ∨
    (ap.mybatis = true ∧ seg = "import com.baomidou.mybatisplus.annotation.*;\n") ∨
    seg = "\n" ∨
    (ap.lambok = true ∧ seg = "import lombok.*;\n") ∨
    (optTruthy ap.extendsOpt = true ∧
      seg = "import " ++ pyStrip (ap.extendsOpt.getD "") ++ ";\n") ∨
    seg = "\n" ∨
    seg = "/**\n" ∨
    seg = " * " ++ t.table_comment ++ "\n" ∨
    (¬ ap.author = "" ∧ (seg = " *\n" ∨ seg = " * @author " ++ ap.author ++ "\n")) ∨
    seg = " */\n" ∨
    (ap.lambok = true ∧ seg = "@Data\n") ∨
    (ap.mybatis = true ∧
      seg = "@TableName(value = \"" ++ t.table_name ++ "\", autoResultMap = true)\n") ∨
    seg = "public class " ++ class_name_of scn t ∨
    (optTruthy ap.extendsOpt = true ∧
      seg = " extends " ++ afterLastDot (ap.extendsOpt.getD "")) ∨
    seg = " \x7b\n\n" := by
  cases pkg <;>
    simp only [gjc_header_segs, List.mem_append, List.mem_ite_nil_right,
      List.mem_ite_nil_left, List.mem_cons, List.mem_singleton, List.not_mem_nil,
      false_or, or_false, or_assoc, Option.isSome_some, Option.isSome_none,
      Option.getD_some, ne_eq, beq_iff_eq, false_and, true_and,
      Bool.false_eq_true] at h ⊢
  · exact h
  · exact h

/-- Inventory of the whole segment list: a member of `gjc_segments` is a
header segment, a field-loop segment of some field, an accessor-loop
segment of some field (only without lombok), or the closing brace. -/
theorem mem_gjc_segments_cases {t : SQLTable} {ap : Args} {scn pkg : Option String}
    {seg : String} (h : seg ∈ gjc_segments t ap scn pkg) :
    seg ∈ gjc_header_segs t ap scn pkg ∨
    (∃ f ∈ t.fields, seg ∈ field_segs ap.mybatis f) ∨
    (ap.lambok = false ∧ ∃ f ∈ t.fields, seg ∈ accessor_segs f) ∨
    seg = "\x7d\n" := by
  simp only [gjc_segments, List.mem_append, List.mem_singleton, List.mem_flatMap] at h
  rcases h with ((h | h) | h) | h
  · exact Or.inl h
  · exact Or.inr (Or.inl h)
  · cases hl : ap.lambok
    · rw [hl] at h
      simp only [if_neg Bool.false_ne_true, List.mem_flatMap] at h
      exact Or.inr (Or.inr (Or.inl ⟨rfl, h⟩))
    · rw [hl] at h
      simp at h
  · exact Or.inr (Or.inr (Or.inr h))

/-- Inventory of the field-loop segments for one field. -/
theorem mem_field_segs_cases {mbp : Bool} {f : SQLField} {seg : String}
    (h : seg ∈ field_segs mbp f) :
    seg = "    /** " ++ f.comment ++ " */\n" ∨
    (mbp = true ∧ pystuff_str_matches f.sql_field_name "id" = true ∧
      seg = "    @TableId(type = IdType.AUTO)\n") ∨
    (mbp = true ∧ pystuff_str_matches f.sql_field_name "id" = false ∧
      seg = "    @TableField(\"" ++ f.sql_field_name ++ "\")\n") ∨
    seg = "    private " ++ f.java_type ++ " " ++ f.java_field_name ++ ";\n\n" := by
  cases mbp <;> cases hid : pystuff_str_matches f.sql_field_name "id" <;>
    simp only [field_segs, hid, List.mem_append, List.mem_ite_nil_right,
      List.mem_cons, List.mem_singleton, List.not_mem_nil, if_true, if_false,
      Bool.false_eq_true, ite_false, ite_true, false_or, or_false] at h <;>
    tauto

/-- Inventory of the accessor-loop segments for one field. -/
theorem mem_accessor_segs_cases {f : SQLField} {seg : String}
    (h : seg ∈ accessor_segs f) :
    seg = "    public " ++ f.java_type ++ " get" ++ first_char_upper f.java_field_name
      ++ "() \x7b\n" ∨
    seg = "        return this." ++ f.java_field_name ++ "\n" ∨
    seg = "    \x7d\n\n" ∨
    seg = "    public void set" ++ first_char_upper f.java_field_name ++ "("
      ++ f.java_type ++ " " ++ f.java_field_name ++ ") \x7b\n" ∨
    seg = "        this." ++ f.java_field_name ++ " = " ++ f.java_field_name
      ++ ";\n" := by
  simp only [accessor_segs, List.mem_cons, List.not_mem_nil, or_false] at h
  tauto

/-! ### Lemmas about the suffix-stripping regex -/

theorem word_not_space {c : Char} (h : isPyWordChar c = true) : isPySpace c = false := by
  cases hc : isPySpace c
  · rfl
  · exfalso
    simp only [isPySpace, Bool.or_eq_true, decide_eq_true_eq] at hc
    rcases hc with ((((rfl | rfl) | rfl) | rfl) | rfl) | rfl <;>
      exact absurd h (by decide)

theorem takeWhile_append_stop {p : Char → Bool} :
    ∀ (l : List Char) (x : Char) (rest : List Char),
      (∀ c ∈ l, p c = true) → p x = false →
      (l ++ x :: rest).takeWhile p = l ∧ (l ++ x :: rest).dropWhile p = x :: rest := by
  intro l
  induction l with
  | nil =>
    intro x rest _ hx
    simp [List.takeWhile_cons, List.dropWhile_cons, hx]
  | cons a tl ih =>
    intro x rest hl hx
    have ha : p a = true := hl a (by simp)
    have := ih x rest (fun c hc => hl c (by simp [hc])) hx
    simp [List.takeWhile_cons, List.dropWhile_cons, ha, this.1, this.2]

/-- The regex of `extract_sql_type` matches `word(digits)` and captures
the word. -/
theorem matchTypeLen_exact {wd ds : List Char} (hw : wd ≠ [])
    (hwc : ∀ c ∈ wd, isPyWordChar c = true) (hds : ds ≠ [])
    (hdig : ∀ c ∈ ds, c.isDigit = true) :
    matchTypeLen (wd ++ '(' :: (ds ++ [')'])) = some wd := by
  obtain ⟨a, tl, rfl⟩ := List.exists_cons_of_ne_nil hw
  have hna : isPySpace a = false := word_not_space (hwc a (by simp))
  have ht := takeWhile_append_stop (a :: tl) '(' (ds ++ [')']) hwc (by decide)
  have htd := takeWhile_append_stop ds ')' [] hdig (by decide)
  have hds' : ds.isEmpty = false := by
    cases ds
    · exact absurd rfl hds
    · rfl
  have hdrop : List.dropWhile isPySpace ((a :: tl) ++ '(' :: (ds ++ [')']))
      = (a :: tl) ++ '(' :: (ds ++ [')']) := by
    rw [List.cons_append, List.dropWhile_cons, hna]
    simp
  unfold matchTypeLen
  rw [hdrop]
  simp only [ht.1, ht.2]
  simp [htd.1, htd.2, hds']

theorem extract_word_len (w : String) (hw : w.data ≠ [])
    (hwc : ∀ c ∈ w.data, isPyWordChar c = true) (ds : List Char) (hds : ds ≠ [])
    (hdig : ∀ c ∈ ds, c.isDigit = true) :
    extract_sql_type (w ++ "(" ++ String.mk ds ++ ")") = w := by
  have hdata : (w ++ "(" ++ String.mk ds ++ ")").data
      = w.data ++ '(' :: (ds ++ [')']) := by
    rw [String.data_append, String.data_append, String.data_append]
    simp
  rw [extract_sql_type, hdata, matchTypeLen_exact hw hwc hds hdig]

theorem to_java_type_len_suffix {k target : String}
    (h1 : to_java_type k = Except.ok target) (h2 : k.data ≠ [])
    (h3 : ∀ c ∈ k.data, isPyWordChar c = true) (ds : List Char) (hds : ds ≠ [])
    (hdig : ∀ c ∈ ds, c.isDigit = true) :
    to_java_type (extract_sql_type (k ++ "(" ++ String.mk ds ++ ")")) =
      Except.ok target := by
  rw [extract_word_len k h2 h3 ds hds hdig, h1]

/-! ### Claims -/

/-- Claim C10: the identifier helpers are total on all strings, the
empty string included: `first_char_upper`, `first_char_lower` and
`to_camel_case` all map the empty string to itself, because the source
takes the first character as the slice `s[0:1]` rather than indexing.
(Totality on every other string is by construction of the embedding:
all three are total Lean functions.) -/
theorem claim_C10_helpers_total_on_empty :
    first_char_upper "" = "" ∧ first_char_lower "" = "" ∧ to_camel_case "" = "" := by
  decide

/-- Claim C2: `to_camel_case` lowercases the whole input and then scans
character by character, dropping underscores, which set a
capitalize-next flag that upper-cases the next non-underscore character
(`camelSpecScan` is that scan, word for word from the spec); and the
three documented examples hold. -/
theorem claim_C2_to_camel_case :
    (∀ s : String, to_camel_case s = String.mk (camelSpecScan false (pyLower s).data)) ∧
    to_camel_case "user_id" = "userId" ∧
    to_camel_case "id" = "id" ∧
    to_camel_case "ORDER_NUM" = "orderNum" := by
  refine ⟨?_, by decide, by decide, by decide⟩
  intro s
  have h := camelStep_foldl (pyLower s).data "" false
  rw [to_camel_case, h, String.empty_append]

/-- Claim C1 counterexample: `decimal(10,2)` is a supported source type
(`decimal` maps to `BigDecimal`) carrying a parenthesized precision
suffix, yet resolution fails with the unknown-type error, because the
regex `^\s*(\w+)\(\d+\)\s*$` only strips a single-integer suffix and
leaves `decimal(10,2)` untouched. -/
theorem claim_C1_counterexample :
    to_java_type "decimal" = Except.ok "BigDecimal" ∧
    extract_sql_type "decimal(10,2)" = "decimal(10,2)" ∧
    to_java_type (extract_sql_type "decimal(10,2)") =
      Except.error "Unable to find corresponding java type for decimal(10,2)" :=
  ⟨rfl, rfl, rfl⟩

/-- Claim C1 (amended): for every supported source column type keyword,
bare or with a parenthesized suffix consisting of one or more digits
(the only suffix form the regex strips — multi-argument precision
suffixes such as `decimal(10,2)` are not stripped and fail), resolution
returns the documented target type; and for every string whose bare
keyword (after suffix stripping and lowercasing) is not in the mapping,
resolution fails with the unknown-type error rather than returning a
default. -/
theorem claim_C1_type_mapping :
    (∀ k target, (k, target) ∈ sql_java_type_mapping →
      to_java_type k = Except.ok target ∧
      ∀ ds : List Char, ds ≠ [] → (∀ c ∈ ds, c.isDigit = true) →
        to_java_type (extract_sql_type (k ++ "(" ++ String.mk ds ++ ")")) =
          Except.ok target) ∧
    (∀ s : String,
      sql_java_type_mapping.lookup (pyLower (extract_sql_type s)) = none →
      to_java_type (extract_sql_type s) =
        Except.error ("Unable to find corresponding java type for " ++
          pyLower (extract_sql_type s))) := by
  have hall : ∀ p ∈ sql_java_type_mapping,
      to_java_type p.1 = Except.ok p.2 ∧ p.1.data ≠ [] ∧
      ∀ c ∈ p.1.data, isPyWordChar c = true := by decide
  constructor
  · intro k target hk
    have h := hall (k, target) hk
    exact ⟨h.1, fun ds hds hdig =>
      to_java_type_len_suffix h.1 h.2.1 h.2.2 ds hds hdig⟩
  · intro s hnone
    rw [to_java_type, hnone]

/-- Claim C1 witness: `varchar(255)` resolves to `String`; the unmapped
keyword `foo` fails with the unknown-type error. -/
theorem claim_C1_type_mapping_witness :
    to_java_type (extract_sql_type "varchar(255)") = Except.ok "String" ∧
    to_java_type (extract_sql_type "foo") =
      Except.error "Unable to find corresponding java type for foo" := by
  constructor
  · have h := (claim_C1_type_mapping.1 "varchar" "String" (by decide)).2
      ['2', '5', '5'] (by decide) (by decide)
    rw [show ("varchar" ++ "(" ++ String.mk ['2', '5', '5'] ++ ")") = "varchar(255)"
        from rfl] at h
    exact h
  · exact claim_C1_type_mapping.2 "foo" (by decide)

/-- Example column `id int` used by the witnesses. -/
def exF1 : SQLField :=
  { sql_field_name := "id", sql_type := "int", comment := "",
    java_type := "Integer", java_field_name := "id" }

/-- Example column `order_no varchar(64)` used by the witnesses. -/
def exF2 : SQLField :=
  { sql_field_name := "order_no", sql_type := "varchar", comment := "",
    java_type := "String", java_field_name := "orderNo" }

/-- Example column `created_at datetime` used by the witnesses. -/
def exF3 : SQLField :=
  { sql_field_name := "created_at", sql_type := "datetime", comment := "",
    java_type := "LocalDateTime", java_field_name := "createdAt" }

/-- Example table used by the witnesses: `t_order (id int, order_no
varchar(64), created_at datetime)` with no comments, as in the spec's
testable-properties section. -/
def exTable : SQLTable :=
  { table_name := "t_order", table_comment := "", fields := [exF1, exF2, exF3] }

/-- Example options with the mybatis-plus toggle on. -/
def exArgsMbp : Args :=
  { mybatis := true, lambok := false, author := "", extendsOpt := none, excl := none }

/-- Example options with every toggle off. -/
def exArgsPlain : Args :=
  { mybatis := false, lambok := false, author := "", extendsOpt := none, excl := none }

/-- Claim C9: the excluded-fields option has no effect on rendering:
two option records that differ only in the `-excl` value render every
table identically.  (`generate_java_class` never reads `excl`; the
driver parses it and nothing consumes it.) -/
theorem claim_C9_excl_unused (t : SQLTable) (ap : Args) (e₁ e₂ : Option String)
    (scn pkg : Option String) :
    generate_java_class t { ap with excl := e₁ } scn pkg =
      generate_java_class t { ap with excl := e₂ } scn pkg := by
  cases ap
  rfl

/-- Claim C4: rendering is a pure, deterministic function of its
arguments: equal tables, options, class-name and package arguments give
byte-identical output.  Absence of side effects holds by construction
of the embedding — the source function only concatenates onto a local
accumulator, and is translated here as a total string-valued
function that leaves its `SQLTable` argument untouched. -/
theorem claim_C4_render_deterministic (t₁ t₂ : SQLTable) (ap₁ ap₂ : Args)
    (scn₁ scn₂ pkg₁ pkg₂ : Option String)
    (ht : t₁ = t₂) (hap : ap₁ = ap₂) (hs : scn₁ = scn₂) (hp : pkg₁ = pkg₂) :
    generate_java_class t₁ ap₁ scn₁ pkg₁ = generate_java_class t₂ ap₂ scn₂ pkg₂ := by
  subst ht
  subst hap
  subst hs
  subst hp
  rfl

/-- Claim C4 witness: rendering the example table twice gives the same
string. -/
theorem claim_C4_render_deterministic_witness :
    generate_java_class exTable exArgsPlain none none =
      generate_java_class exTable exArgsPlain none none :=
  claim_C4_render_deterministic exTable exTable exArgsPlain exArgsPlain
    none none none none rfl rfl rfl rfl

/-- Claim C5: the output is the header, then one field block per column
in exactly the schema-reader order, then — only when the lombok
data-annotation toggle is off — one accessor block (a getter and a
setter, see `accessor_segs`) per field in the same order immediately
after the field block, then the closing brace; with the toggle on, the
accessor part is empty. -/
theorem claim_C5_field_order (t : SQLTable) (ap : Args) (scn pkg : Option String) :
    generate_java_class t ap scn pkg =
      String.join (gjc_header_segs t ap scn pkg) ++
      String.join (t.fields.map (fun f => String.join (field_segs ap.mybatis f))) ++
      (if ap.lambok then ""
       else String.join (t.fields.map (fun f => String.join (accessor_segs f)))) ++
      "\x7d\n" := by
  unfold generate_java_class gjc_segments
  rw [join_append, join_append, join_append, join_flatMap]
  cases hl : ap.lambok <;>
    simp [join_flatMap, join_cons, join_nil, String.append_empty]

/-- Claim C3: with the mybatis-plus flag set, the renderer emits the
class-level `@TableName` annotation carrying the literal table name
(also exhibited as a substring of the final output), and for each
column the `@TableId` annotation when the field name is the primary key
`id`, otherwise the `@TableField` annotation carrying the source column
name; with the flag unset, no emitted segment starts with an ORM
annotation (`@Table...` at class level or indented `@Table...` at field
level), so none of these annotations appear. -/
theorem claim_C3_orm_annotations (t : SQLTable) (ap : Args) (scn pkg : Option String) :
    (ap.mybatis = true →
      ("@TableName(value = \"" ++ t.table_name ++ "\", autoResultMap = true)\n")
          ∈ gjc_segments t ap scn pkg ∧
      ("@TableName(value = \"" ++ t.table_name ++ "\", autoResultMap = true)\n").data
          <:+: (generate_java_class t ap scn pkg).data ∧
      ∀ f ∈ t.fields,
        (pystuff_str_matches f.sql_field_name "id" = true →
          "    @TableId(type = IdType.AUTO)\n" ∈ gjc_segments t ap scn pkg) ∧
        (pystuff_str_matches f.sql_field_name "id" = false →
          ("    @TableField(\"" ++ f.sql_field_name ++ "\")\n")
            ∈ gjc_segments t ap scn pkg)) ∧
    (ap.mybatis = false →
      ∀ seg ∈ gjc_segments t ap scn pkg,
        List.isPrefixOf "@Table".data seg.data = false ∧
        List.isPrefixOf "    @Table".data seg.data = false) := by
  constructor
  · intro hm
    have hmem : ("@TableName(value = \"" ++ t.table_name ++ "\", autoResultMap = true)\n")
        ∈ gjc_segments t ap scn pkg := by
      refine List.mem_append.mpr (Or.inl (List.mem_append.mpr (Or.inl
        (List.mem_append.mpr (Or.inl ?_)))))
      simp [gjc_header_segs, hm]
    refine ⟨hmem, ?_, ?_⟩
    · simpa [generate_java_class] using mem_join_isInfix hmem
    · intro f hf
      constructor
      · intro hid
        refine List.mem_append.mpr (Or.inl (List.mem_append.mpr (Or.inl
          (List.mem_append.mpr (Or.inr ?_)))))
        exact List.mem_flatMap.mpr ⟨f, hf, by simp [field_segs, hm, hid]⟩
      · intro hid
        refine List.mem_append.mpr (Or.inl (List.mem_append.mpr (Or.inl
          (List.mem_append.mpr (Or.inr ?_)))))
        exact List.mem_flatMap.mpr ⟨f, hf, by simp [field_segs, hm, hid]⟩
  · intro hm seg hseg
    rcases mem_gjc_segments_cases hseg with hh | ⟨f, hf, hfs⟩ | ⟨hl, f, hf, has⟩ | rfl
    · rcases mem_gjc_header_cases hh with
        ⟨hg, rfl⟩ | ⟨hg, rfl⟩ | ⟨hg, rfl⟩ | rfl | ⟨hmb, rfl⟩ | rfl | ⟨hg, rfl⟩ |
        ⟨hg, rfl⟩ | rfl | rfl | rfl | ⟨hg, rfl | rfl⟩ | rfl | ⟨hg, rfl⟩ | ⟨hmb, rfl⟩ |
        rfl | ⟨hg, rfl⟩ | rfl <;>
      first
        | simp [hm] at hmb
        | exact ⟨by decide, by decide⟩
        | refine ⟨?_, ?_⟩ <;>
            (simp only [String.append_assoc]; exact not_isPfx_str (by decide) _)
    · rcases mem_field_segs_cases hfs with rfl | ⟨hmb, hg, rfl⟩ | ⟨hmb, hg, rfl⟩ | rfl <;>
      first
        | simp [hm] at hmb
        | refine ⟨?_, ?_⟩ <;>
            (simp only [String.append_assoc]; exact not_isPfx_str (by decide) _)
    · rcases mem_accessor_segs_cases has with rfl | rfl | rfl | rfl | rfl <;>
      first
        | exact ⟨by decide, by decide⟩
        | refine ⟨?_, ?_⟩ <;>
            (simp only [String.append_assoc]; exact not_isPfx_str (by decide) _)
    · exact ⟨by decide, by decide⟩

/-- Claim C3 witness: on the `t_order` example with mybatis-plus on,
the `@TableName`, `@TableId` (for `id`) and `@TableField` (for
`order_no`) annotations are all emitted; with the flag off, the emitted
newline segment carries no ORM annotation. -/
theorem claim_C3_orm_annotations_witness :
    ("@TableName(value = \"" ++ exTable.table_name ++ "\", autoResultMap = true)\n")
        ∈ gjc_segments exTable exArgsMbp none none ∧
    "    @TableId(type = IdType.AUTO)\n" ∈ gjc_segments exTable exArgsMbp none none ∧
    ("    @TableField(\"" ++ exF2.sql_field_name ++ "\")\n")
        ∈ gjc_segments exTable exArgsMbp none none ∧
    List.isPrefixOf "@Table".data "\n".data = false := by
  have hpos := (claim_C3_orm_annotations exTable exArgsMbp none none).1 rfl
  have hneg := (claim_C3_orm_annotations exTable exArgsPlain none none).2 rfl
    "\n" (by decide)
  exact ⟨hpos.1,
    (hpos.2.2 exF1 (by simp [exTable])).1 (by decide),
    (hpos.2.2 exF2 (by simp [exTable])).2 (by decide),
    hneg.1⟩

/-- Claim C6: class-name precedence.  (i) An explicitly given class
name argument always wins: `generate_java_class` uses it verbatim
regardless of the table.  (ii) Without one, the name derived from the
table via `first_char_upper (to_camel_case tableName)` is used.
(iii) In the driver, an output path containing `.java` determines the
name independently of the table, (iv) no output argument falls back to
the table-derived name, and (v) so does an output path without
`.java`.  (vi) Table `t_order` yields class `TOrder`, and (vii) the
chosen name is what the renderer puts after `public class`. -/
theorem claim_C6_class_name_precedence :
    (∀ (t : SQLTable) (n : String), class_name_of (some n) t = n) ∧
    (∀ t : SQLTable,
      class_name_of none t = first_char_upper (to_camel_case t.table_name)) ∧
    (∀ (t₁ t₂ : SQLTable) (fn : String), fn ≠ "" →
      (rfindSub fn ".java").isSome = true →
      driver_class_name (some fn) t₁ = driver_class_name (some fn) t₂) ∧
    (∀ t : SQLTable, driver_class_name none t = t.supply_java_class_name) ∧
    (∀ (t : SQLTable) (fn : String), rfindSub fn ".java" = none →
      driver_class_name (some fn) t = t.supply_java_class_name) ∧
    first_char_upper (to_camel_case "t_order") = "TOrder" ∧
    (∀ (t : SQLTable) (ap : Args) (scn pkg : Option String),
      ("public class " ++ class_name_of scn t) ∈ gjc_segments t ap scn pkg) := by
  refine ⟨fun t n => rfl, fun t => rfl, ?_, fun t => rfl, ?_, by decide, ?_⟩
  · intro t₁ t₂ fn hfn hjava
    rw [Option.isSome_iff_exists] at hjava
    obtain ⟨hi, hhi⟩ := hjava
    simp [driver_class_name, hfn, hhi]
  · intro t fn hjava
    by_cases hfn : fn = "" <;>
      simp [driver_class_name, hfn, hjava]
  · intro t ap scn pkg
    refine List.mem_append.mpr (Or.inl (List.mem_append.mpr (Or.inl
      (List.mem_append.mpr (Or.inl ?_)))))
    simp [gjc_header_segs]

/-- Claim C6 witness: the path `out/Foo.java` forces the class name
`Foo` whatever the table is; without an output path the `t_order`
example falls back to `TOrder`. -/
theorem claim_C6_class_name_precedence_witness :
    class_name_of (some "Custom") exTable = "Custom" ∧
    driver_class_name (some "out/Foo.java") exTable =
      driver_class_name (some "out/Foo.java") (mkSQLTable "other" none []) ∧
    driver_class_name none exTable = exTable.supply_java_class_name ∧
    driver_class_name (some "outdir") exTable = exTable.supply_java_class_name ∧
    ("public class " ++ class_name_of none exTable)
      ∈ gjc_segments exTable exArgsPlain none none := by
  refine ⟨claim_C6_class_name_precedence.1 exTable "Custom",
    claim_C6_class_name_precedence.2.2.1 exTable (mkSQLTable "other" none [])
      "out/Foo.java" (by decide) (by decide),
    claim_C6_class_name_precedence.2.2.2.1 exTable,
    claim_C6_class_name_precedence.2.2.2.2.1 exTable "outdir" (by decide),
    claim_C6_class_name_precedence.2.2.2.2.2.2 exTable exArgsPlain none none⟩

/-! ### Import segment analysis (claim C7) -/

theorem isPfx_self (l : List Char) : List.isPrefixOf l l = true := by
  rw [List.isPrefixOf_iff_prefix]

/-- Appending a middle part between the fixed pieces of an import line
is injective. -/
theorem import_seg_inj {a b : String}
    (h : "import " ++ a ++ ";\n" = "import " ++ b ++ ";\n") : a = b := by
  have hd := congrArg String.data h
  simp [String.data_append] at hd
  exact String.ext hd

/-- The base-class import line differs from a given import line as soon
as the stripped base class differs from that import's target. -/
theorem extends_seg_ne {o : Option String} {X : String} (ho : optTruthy o = true)
    (hne : ∀ e, o = some e → pyStrip e ≠ X) :
    ("import " ++ X ++ ";\n") ≠ ("import " ++ pyStrip (o.getD "") ++ ";\n") := by
  cases o with
  | none => exact absurd ho (by decide)
  | some e =>
    intro h
    exact absurd (import_seg_inj h).symm (hne e rfl)

theorem is_type_used_iff {t : SQLTable} {jt : String} :
    t.is_type_used jt = true ↔ ∃ f ∈ t.fields, f.java_type = jt := by
  simp [SQLTable.is_type_used]

/-- Every emitted segment that starts with `import ` is one of the
five import lines, each with its guarding condition. -/
theorem mem_gjc_import_cases {t : SQLTable} {ap : Args} {scn pkg : Option String}
    {seg : String} (h : seg ∈ gjc_segments t ap scn pkg)
    (hpfx : List.isPrefixOf "import ".data seg.data = true) :
    (t.is_type_used "LocalDateTime" = true ∧ seg = "import java.time.*;\n") ∨
    (t.is_type_used "BigDecimal" = true ∧ seg = "import java.math.*;\n") ∨
    (ap.mybatis = true ∧ seg = "import com.baomidou.mybatisplus.annotation.*;\n") ∨
    (ap.lambok = true ∧ seg = "import lombok.*;\n") ∨
    (optTruthy ap.extendsOpt = true ∧
      seg = "import " ++ pyStrip (ap.extendsOpt.getD "") ++ ";\n") := by
  rcases mem_gjc_segments_cases h with hh | ⟨f, hf, hfs⟩ | ⟨hl, f, hf, has⟩ | rfl
  · rcases mem_gjc_header_cases hh with
      ⟨hg, rfl⟩ | ⟨hg, rfl⟩ | ⟨hg, rfl⟩ | rfl | ⟨hg, rfl⟩ | rfl | ⟨hg, rfl⟩ |
      ⟨hg, rfl⟩ | rfl | rfl | rfl | ⟨hg, rfl | rfl⟩ | rfl | ⟨hg, rfl⟩ | ⟨hg, rfl⟩ |
      rfl | ⟨hg, rfl⟩ | rfl <;>
    first
      | exact Or.inl ⟨hg, rfl⟩
      | exact Or.inr (Or.inl ⟨hg, rfl⟩)
      | exact Or.inr (Or.inr (Or.inl ⟨hg, rfl⟩))
      | exact Or.inr (Or.inr (Or.inr (Or.inl ⟨hg, rfl⟩)))
      | exact Or.inr (Or.inr (Or.inr (Or.inr ⟨hg, rfl⟩)))
      | exact absurd hpfx (by decide)
      | (rw [not_isPfx_str (by decide) _] at hpfx; exact Bool.noConfusion hpfx)
      | (simp only [String.append_assoc] at hpfx;
         rw [not_isPfx_str (by decide) _] at hpfx; exact Bool.noConfusion hpfx)
  · rcases mem_field_segs_cases hfs with rfl | ⟨hmb, hg, rfl⟩ | ⟨hmb, hg, rfl⟩ | rfl <;>
    first
      | exact absurd hpfx (by decide)
      | (simp only [String.append_assoc] at hpfx;
         rw [not_isPfx_str (by decide) _] at hpfx; exact Bool.noConfusion hpfx)
  · rcases mem_accessor_segs_cases has with rfl | rfl | rfl | rfl | rfl <;>
    first
      | exact absurd hpfx (by decide)
      | (simp only [String.append_assoc] at hpfx;
         rw [not_isPfx_str (by decide) _] at hpfx; exact Bool.noConfusion hpfx)
  · exact absurd hpfx (by decide)

/-- Claim C7: the date-time import is emitted iff some column's
resolved target type is `LocalDateTime`, the decimal import iff some
column's is `BigDecimal`; the mybatis-plus annotation import is emitted
exactly when the ORM flag is set and the lombok import exactly when
accessor generation is suppressed; a given (truthy) base class always
gets its import.  The hypothesis only rules out a base class whose
stripped name collides verbatim with one of the four fixed
wildcard-imported targets. -/
theorem claim_C7_imports (t : SQLTable) (ap : Args) (scn pkg : Option String)
    (hext : ∀ e, ap.extendsOpt = some e →
      pyStrip e ≠ "java.time.*" ∧ pyStrip e ≠ "java.math.*" ∧
      pyStrip e ≠ "com.baomidou.mybatisplus.annotation.*" ∧ pyStrip e ≠ "lombok.*") :
    (("import java.time.*;\n" ∈ gjc_segments t ap scn pkg) ↔
      ∃ f ∈ t.fields, f.java_type = "LocalDateTime") ∧
    (("import java.math.*;\n" ∈ gjc_segments t ap scn pkg) ↔
      ∃ f ∈ t.fields, f.java_type = "BigDecimal") ∧
    (("import com.baomidou.mybatisplus.annotation.*;\n" ∈ gjc_segments t ap scn pkg)
        ↔ ap.mybatis = true) ∧
    (("import lombok.*;\n" ∈ gjc_segments t ap scn pkg) ↔ ap.lambok = true) ∧
    (∀ e, ap.extendsOpt = some e → e ≠ "" →
      ("import " ++ pyStrip e ++ ";\n") ∈ gjc_segments t ap scn pkg) := by
  have hdr_mem : ∀ seg, seg ∈ gjc_header_segs t ap scn pkg →
      seg ∈ gjc_segments t ap scn pkg := by
    intro seg hs
    exact List.mem_append.mpr (Or.inl (List.mem_append.mpr (Or.inl
      (List.mem_append.mpr (Or.inl hs)))))
  refine ⟨⟨?_, ?_⟩, ⟨?_, ?_⟩, ⟨?_, ?_⟩, ⟨?_, ?_⟩, ?_⟩
  · intro h
    rcases mem_gjc_import_cases h (by decide) with ⟨hg, he⟩ | ⟨hg, he⟩ | ⟨hg, he⟩ |
      ⟨hg, he⟩ | ⟨hg, he⟩
    · exact is_type_used_iff.mp hg
    · exact absurd he (by decide)
    · exact absurd he (by decide)
    · exact absurd he (by decide)
    · exact absurd he (extends_seg_ne hg (fun e hsome => (hext e hsome).1))
  · intro h
    apply hdr_mem
    simp [gjc_header_segs, is_type_used_iff.mpr h]
  · intro h
    rcases mem_gjc_import_cases h (by decide) with ⟨hg, he⟩ | ⟨hg, he⟩ | ⟨hg, he⟩ |
      ⟨hg, he⟩ | ⟨hg, he⟩
    · exact absurd he (by decide)
    · exact is_type_used_iff.mp hg
    · exact absurd he (by decide)
    · exact absurd he (by decide)
    · exact absurd he (extends_seg_ne hg (fun e hsome => (hext e hsome).2.1))
  · intro h
    apply hdr_mem
    simp [gjc_header_segs, is_type_used_iff.mpr h]
  · intro h
    rcases mem_gjc_import_cases h (by decide) with ⟨hg, he⟩ | ⟨hg, he⟩ | ⟨hg, he⟩ |
      ⟨hg, he⟩ | ⟨hg, he⟩
    · exact absurd he (by decide)
    · exact absurd he (by decide)
    · exact hg
    · exact absurd he (by decide)
    · exact absurd he (extends_seg_ne hg (fun e hsome => (hext e hsome).2.2.1))
  · intro h
    apply hdr_mem
    simp [gjc_header_segs, h]
  · intro h
    rcases mem_gjc_import_cases h (by decide) with ⟨hg, he⟩ | ⟨hg, he⟩ | ⟨hg, he⟩ |
      ⟨hg, he⟩ | ⟨hg, he⟩
    · exact absurd he (by decide)
    · exact absurd he (by decide)
    · exact absurd he (by decide)
    · exact hg
    · exact absurd he (extends_seg_ne hg (fun e hsome => (hext e hsome).2.2.2))
  · intro h
    apply hdr_mem
    simp [gjc_header_segs, h]
  · intro e hsome hne
    apply hdr_mem
    have htr : optTruthy (some e) = true := by
      simp [optTruthy, hne]
    simp [gjc_header_segs, hsome, htr]

/-- Example options carrying a base class. -/
def exArgsExt : Args :=
  { mybatis := false, lambok := false, author := "",
    extendsOpt := some "com.example.Base", excl := none }

/-- Claim C7 witness: the `t_order` example (which has a datetime
column and no decimal column) gets the date-time import and not the
decimal import; a given base class gets its import line. -/
theorem claim_C7_imports_witness :
    ("import java.time.*;\n" ∈ gjc_segments exTable exArgsPlain none none) ∧
    ¬ ("import java.math.*;\n" ∈ gjc_segments exTable exArgsPlain none none) ∧
    ("import " ++ pyStrip "com.example.Base" ++ ";\n"
        ∈ gjc_segments exTable exArgsExt none none) := by
  have h1 := claim_C7_imports exTable exArgsPlain none none (fun e h => nomatch h)
  have h2 := claim_C7_imports exTable exArgsExt none none
    (fun e h => by
      cases h
      exact ⟨by decide, by decide, by decide, by decide⟩)
  refine ⟨h1.1.mpr ⟨exF3, by simp [exTable], rfl⟩, ?_,
    h2.2.2.2.2 "com.example.Base" rfl (by decide)⟩
  intro hmem
  have h3 := h1.2.1.mp hmem
  simp [exTable, exF1, exF2, exF3] at h3

/-! ### Claim C8: behaviour on a missing table -/

theorem isOk_bind_eq_false {α β : Type} (x : Except String α)
    (f : α → Except String β) (h : ∀ a, (f a).isOk = false) :
    (x >>= f).isOk = false := by
  cases x with
  | error e => rfl
  | ok a => exact h a

/-- Claim C8 counterexample: when every schema query returns no rows
(the table does not exist), the reader fails with a bare `IndexError`
from `r[0][0]`; the message mentions neither "table" nor the requested
table name, so it is not a clear table-not-found error. -/
theorem claim_C8_counterexample :
    parseSqlTable "t_order" [] [] [] =
      Except.error "IndexError: list index out of range" ∧
    ¬ ("table".data <:+: "IndexError: list index out of range".data) ∧
    ¬ ("t_order".data <:+: "IndexError: list index out of range".data) := by
  refine ⟨rfl, by decide, by decide⟩

/-- Claim C8 (amended): when the table-comment query returns no rows,
the schema reader never produces a table description (no silent empty
table, and hence no silently generated empty class) — but the failure
is an uncaught `IndexError` from the unchecked `r[0][0]`, not a
dedicated table-not-found error. -/
theorem claim_C8_no_silent_empty_table :
    (∀ (tbl : String) (d ci : List (String × String)),
      (parseSqlTable tbl d ci []).isOk = false) ∧
    fetch_table_comment [] = Except.error "IndexError: list index out of range" := by
  refine ⟨?_, rfl⟩
  intro tbl d ci
  unfold parseSqlTable
  apply isOk_bind_eq_false
  intro fields
  apply isOk_bind_eq_false
  intro fields2
  rfl

end JavaEntityGen
